import Mathlib

/-!
# Verification of the threaded terrain chunk builder

Shallow embedding of `src/terrain-builder-threaded-worker.js` (the
`_TerrainBuilderThreadedWorker.Rebuild` pipeline) and of the ocean chunk
projection in `src/ocean.js` (`OceanChunkManager._CreateOceanChunk`).

Modelling conventions:
* JS doubles are modelled by exact rationals `ℚ`.
* `Math.sqrt` and `Math.pow` are irrational-valued; they are threaded through
  the development as the fields of a `MathOps` parameter, so every definition
  stays computable and theorems quantify over the interpretation.
* `THREE.Vector3.normalize` divides by `length() || 1`, i.e. a vector whose
  computed length is `0` is divided by `1`.
* `THREE.Vector3.applyMatrix4` is the full 4×4 transform with perspective
  divide (column-major elements `e0..e15`); division by zero in `ℚ` yields `0`
  where JS would yield non-finite values (no claim exercises that case).
* The `Infinity` cull limit used for non-ring shapes (worker line 97-99) is
  modelled by `Option ℚ` with `none` standing for `Infinity`; the code only
  ever compares against the limit inside `if (isRing)` blocks, so the `none`
  case is never inspected as a number.
* The noise / biome / colour generators are constructed by `Init` from the
  request parameters out of `noise.js` and `texture-splatter.js`; those
  modules are opaque here, so the generators appear as the function-valued
  fields of a `Generators` record (pure functions, matching the build-purity
  hypothesis of the spec). A splat map `{key: {index, strength}}` is modelled
  as a function from the fixed key list `splatKeys` (JS object insertion
  order) to an (index, strength) pair.
-/

/-- Interpretation of the transcendental JS math functions used by the
builder: `Math.sqrt` and `Math.pow`. -/
structure MathOps where
  sqrt : ℚ → ℚ
  pow : ℚ → ℚ → ℚ

/-- `Math.max` on two arguments. -/
def jsMax (a b : ℚ) : ℚ := if a ≤ b then b else a

/-- `Math.min` on two arguments. -/
def jsMin (a b : ℚ) : ℚ := if a ≤ b then a else b

/-- `Math.abs`. -/
def jsAbs (a : ℚ) : ℚ := if a < 0 then -a else a

theorem jsMax_eq_max (a b : ℚ) : jsMax a b = max a b := by
  unfold jsMax; split <;> [exact (max_eq_right (by assumption)).symm;
    exact (max_eq_left (le_of_not_le (by assumption))).symm]

theorem jsMin_eq_min (a b : ℚ) : jsMin a b = min a b := by
  unfold jsMin; split <;> [exact (min_eq_left (by assumption)).symm;
    exact (min_eq_right (le_of_not_le (by assumption))).symm]

theorem jsAbs_eq_abs (a : ℚ) : jsAbs a = |a| := by
  unfold jsAbs
  split <;> [exact (abs_of_neg (by assumption)).symm;
    exact (abs_of_nonneg (le_of_not_lt (by assumption))).symm]

theorem le_jsMax_left (a b : ℚ) : a ≤ jsMax a b := by
  rw [jsMax_eq_max]; exact le_max_left a b

theorem jsMax_le {a b c : ℚ} (ha : a ≤ c) (hb : b ≤ c) : jsMax a b ≤ c := by
  rw [jsMax_eq_max]; exact max_le ha hb

theorem jsMin_le_left (a b : ℚ) : jsMin a b ≤ a := by
  rw [jsMin_eq_min]; exact min_le_left a b

/-- `THREE.Vector3` over exact rationals. -/
structure Vec3 where
  x : ℚ
  y : ℚ
  z : ℚ
deriving DecidableEq, Repr

namespace Vec3

instance : Add Vec3 := ⟨fun a b => ⟨a.x + b.x, a.y + b.y, a.z + b.z⟩⟩
instance : Sub Vec3 := ⟨fun a b => ⟨a.x - b.x, a.y - b.y, a.z - b.z⟩⟩
instance : Neg Vec3 := ⟨fun a => ⟨-a.x, -a.y, -a.z⟩⟩
instance : Zero Vec3 := ⟨⟨0, 0, 0⟩⟩

@[simp] theorem add_def (a b : Vec3) :
    a + b = ⟨a.x + b.x, a.y + b.y, a.z + b.z⟩ := rfl

@[simp] theorem sub_def (a b : Vec3) :
    a - b = ⟨a.x - b.x, a.y - b.y, a.z - b.z⟩ := rfl

@[simp] theorem neg_def (a : Vec3) : -a = ⟨-a.x, -a.y, -a.z⟩ := rfl

@[simp] theorem zero_def : (0 : Vec3) = ⟨0, 0, 0⟩ := rfl

/-- `Vector3.multiplyScalar`. -/
def scale (s : ℚ) (v : Vec3) : Vec3 := ⟨s * v.x, s * v.y, s * v.z⟩

/-- `Vector3.lengthSq`. -/
def lengthSq (v : Vec3) : ℚ := v.x * v.x + v.y * v.y + v.z * v.z

/-- `Vector3.length` = `Math.sqrt(lengthSq)`. -/
def len (m : MathOps) (v : Vec3) : ℚ := m.sqrt (lengthSq v)

/-- `Vector3.normalize` = `divideScalar(length() || 1)`. -/
def normalize (m : MathOps) (v : Vec3) : Vec3 :=
  let l := len m v
  scale (1 / (if l = 0 then 1 else l)) v

/-- `Vector3.cross`. -/
def cross (a b : Vec3) : Vec3 :=
  ⟨a.y * b.z - a.z * b.y, a.z * b.x - a.x * b.z, a.x * b.y - a.y * b.x⟩

end Vec3

/-- `THREE.Matrix4`, column-major elements `e0 .. e15` exactly as in the
`elements` array consumed by `Vector3.applyMatrix4`. -/
structure Mat4 where
  e0 : ℚ
  e1 : ℚ
  e2 : ℚ
  e3 : ℚ
  e4 : ℚ
  e5 : ℚ
  e6 : ℚ
  e7 : ℚ
  e8 : ℚ
  e9 : ℚ
  e10 : ℚ
  e11 : ℚ
  e12 : ℚ
  e13 : ℚ
  e14 : ℚ
  e15 : ℚ
deriving DecidableEq, Repr

/-- `Vector3.applyMatrix4`: full affine/projective transform with the
`w = 1 / (e3 x + e7 y + e11 z + e15)` perspective divide. -/
def Vec3.applyMatrix4 (M : Mat4) (v : Vec3) : Vec3 :=
  let w := 1 / (M.e3 * v.x + M.e7 * v.y + M.e11 * v.z + M.e15)
  ⟨(M.e0 * v.x + M.e4 * v.y + M.e8 * v.z + M.e12) * w,
   (M.e1 * v.x + M.e5 * v.y + M.e9 * v.z + M.e13) * w,
   (M.e2 * v.x + M.e6 * v.y + M.e10 * v.z + M.e14) * w⟩

/-- Vertex colour returned by `TextureSplatter.GetColour`. -/
structure Colour where
  r : ℚ
  g : ℚ
  b : ℚ
deriving DecidableEq, Repr

/-- `params.shapeParams` of a build request; each field is optional and
defaulted inside `Rebuild` (worker lines 85-94). -/
structure ShapeParams where
  latCutoff : Option ℚ := none
  latFade : Option ℚ := none
  dropExponent : Option ℚ := none
  cullLatitude : Option ℚ := none
deriving DecidableEq, Repr

/-- The fields of `this._params` read by `Rebuild` (worker lines 74-83). -/
structure BuildParams where
  worldMatrix : Mat4
  resolution : ℕ
  radius : ℚ
  offset : Vec3
  origin : Vec3
  width : ℚ
  center : Vec3
  shape : String
  shapeParams : ShapeParams
deriving DecidableEq, Repr

/-- The generator objects constructed in `Init` from the request's
`noiseParams` / `biomesParams` / `colourNoiseParams` /
`heightGeneratorsParams` (out of the opaque `noise.js` and
`texture-splatter.js` modules): pure functions of a point.
`splatKeys` is the (fixed) key insertion order of the splat-map objects
returned by `TextureSplatter.GetSplat`; `getSplat p n u k` is the
`{index, strength}` entry of key `k`. -/
structure Generators where
  heightGen : Vec3 → ℚ
  getColour : Vec3 → Colour
  getSplat : Vec3 → Vec3 → Vec3 → String → ℚ × ℚ
  splatKeys : List String

namespace Worker

/-- `shape === "ring"` (worker line 84). -/
def isRing (p : BuildParams) : Bool := p.shape == "ring"

/-- `latCutoff` with its default `0.3` (worker lines 85-86). -/
def latCutoff (p : BuildParams) : ℚ := p.shapeParams.latCutoff.getD 0.3

/-- `latFade` with its default `0.2` (worker lines 87-88). -/
def latFade (p : BuildParams) : ℚ := p.shapeParams.latFade.getD 0.2

/-- `dropExponent` with its default `1.5` (worker lines 89-90). -/
def dropExponent (p : BuildParams) : ℚ := p.shapeParams.dropExponent.getD 1.5

/-- `cullLatitude` with its default
`Math.min(0.95, latCutoff + latFade * 0.9)` (worker lines 91-94). -/
def cullLatitude (p : BuildParams) : ℚ :=
  p.shapeParams.cullLatitude.getD (jsMin 0.95 (latCutoff p + latFade p * 0.9))

/-- `latCutoffClamped = Math.max(0, Math.min(1, latCutoff))` (worker line 95). -/
def latCutoffClamped (p : BuildParams) : ℚ := jsMax 0 (jsMin 1 (latCutoff p))

/-- `latFadeSafe = Math.max(1e-5, latFade)` (worker line 96). -/
def latFadeSafe (p : BuildParams) : ℚ := jsMax (1e-5) (latFade p)

/-- `cullLatitudeLimit` (worker lines 97-99): for a ring,
`Math.max(0, Math.min(1, cullLatitude))`; otherwise `Infinity`,
modelled as `none`. -/
def cullLatitudeLimit (p : BuildParams) : Option ℚ :=
  if isRing p then some (jsMax 0 (jsMin 1 (cullLatitude p))) else none

/-- The clamped ring cull limit (the `some` payload of `cullLatitudeLimit`). -/
def ringCullLimit (p : BuildParams) : ℚ := jsMax 0 (jsMin 1 (cullLatitude p))

/-- Sphere projection step of the vertex pipeline (worker lines 109-111):
normalize the pre-projection point and scale it out to the radius. -/
def sphereProject (m : MathOps) (r : ℚ) (v : Vec3) : Vec3 :=
  Vec3.scale r (Vec3.normalize m v)

/-- `_EquatorDir` (worker lines 125-130): horizontal component of the
direction, re-normalized, with an `(1,0,0)` fallback below `1e-8`. -/
def ringEquatorDir (m : MathOps) (d : Vec3) : Vec3 :=
  let e : Vec3 := ⟨d.x, 0, d.z⟩
  if Vec3.lengthSq e < 1e-8 then ⟨1, 0, 0⟩ else Vec3.normalize m e

/-- `blendRaw` (worker lines 132-135). -/
def ringBlendRaw (p : BuildParams) (lat : ℚ) : ℚ :=
  jsMin 1 (jsMax 0 ((lat - latCutoffClamped p) / latFadeSafe p))

/-- `heightMask = 1 - Math.pow(blendRaw, dropExponent)` (worker line 136). -/
def ringMask (m : MathOps) (p : BuildParams) (lat : ℚ) : ℚ :=
  1 - m.pow (ringBlendRaw p lat) (dropExponent p)

/-- Ring projection of a direction (worker lines 138-144): equatorial
direction scaled to the ring radius, vertical offset `d.y * ringRadius`. -/
def ringProjectPos (m : MathOps) (r : ℚ) (d : Vec3) : Vec3 :=
  let e := ringEquatorDir m d
  ⟨e.x * r, d.y * r, e.z * r⟩

/-- Ring up-vector `_D = -_RadialDir` (worker line 146). -/
def ringUpDir (m : MathOps) (d : Vec3) : Vec3 := -(ringEquatorDir m d)

/-- All values pushed for one grid vertex by the vertex loop
(worker lines 101-184). -/
structure VertexData where
  position : Vec3
  colour : Colour
  upDir : Vec3
  coord : Vec3
  uv : ℚ × ℚ
  wsPosition : Vec3
  latitude : ℚ
  heightMask : ℚ
deriving DecidableEq, Repr

/-- Junk vertex used as the out-of-range default of list lookups (never
reached by an in-range index). -/
def vdDefault : VertexData :=
  { position := 0, colour := ⟨0, 0, 0⟩, upDir := 0, coord := 0,
    uv := (0, 0), wsPosition := 0, latitude := 0, heightMask := 1 }

/-- Pre-ring projected point of grid cell `(x, y)` (worker lines 101-113):
grid point plus offset, normalized out to the radius, `z -= radius`, then
the world matrix. -/
def rawProjected (m : MathOps) (p : BuildParams) (x y : ℕ) : Vec3 :=
  let xp := p.width * (x : ℚ) / (p.resolution : ℚ)
  let yp := p.width * (y : ℚ) / (p.resolution : ℚ)
  let half := p.width / 2
  let p0 : Vec3 := (⟨xp - half, yp - half, p.radius⟩ : Vec3) + p.offset
  let p2 := sphereProject m p.radius p0
  let p3 : Vec3 := ⟨p2.x, p2.y, p2.z - p.radius⟩
  Vec3.applyMatrix4 p.worldMatrix p3

/-- `latitudeValue` of grid cell `(x, y)` (worker lines 115-121). -/
def gridLat (m : MathOps) (p : BuildParams) (x y : ℕ) : ℚ :=
  if Vec3.lengthSq (rawProjected m p x y) > 0 then
    jsAbs (Vec3.normalize m (rawProjected m p x y)).y
  else 0

/-- `_D` before the ring branch (worker lines 115-121): the normalized
projected point, or `(0,1,0)` for a zero vector. -/
def gridDir (m : MathOps) (p : BuildParams) (x y : ℕ) : Vec3 :=
  if Vec3.lengthSq (rawProjected m p x y) > 0 then
    Vec3.normalize m (rawProjected m p x y)
  else ⟨0, 1, 0⟩

/-- `heightMask` of grid cell `(x, y)` (worker lines 123-136): the ring
latitude fade, `1` for non-ring shapes. -/
def vertexMask (m : MathOps) (p : BuildParams) (x y : ℕ) : ℚ :=
  if isRing p then ringMask m p (gridLat m p x y) else 1

/-- The world-space surface point `_W` of grid cell `(x, y)` (worker lines
138-155): the (possibly ring-remapped) projected point plus the shape
center, captured before the origin is subtracted. -/
def worldPoint (m : MathOps) (p : BuildParams) (x y : ℕ) : Vec3 :=
  (if isRing p then ringProjectPos m p.radius (gridDir m p x y)
   else rawProjected m p x y) + p.center

/-- The displacement direction `_D` after the ring branch (worker lines
141-147): negated radial direction for rings, outward direction otherwise. -/
def vertexUp (m : MathOps) (p : BuildParams) (x y : ℕ) : Vec3 :=
  if isRing p then ringUpDir m (gridDir m p x y) else gridDir m p x y

/-- The sampled height of grid cell `(x, y)` (worker lines 161-164):
the height generator at the world point, multiplied by the latitude fade
mask for rings. -/
def vertexHeight (m : MathOps) (g : Generators) (p : BuildParams)
    (x y : ℕ) : ℚ :=
  if isRing p then g.heightGen (worldPoint m p x y) * vertexMask m p x y
  else g.heightGen (worldPoint m p x y)

/-- Body of the vertex loop (worker lines 101-183) for grid cell `(x, y)`:
project, optionally ring-remap, displace by the (mask-attenuated) height,
and record every per-vertex array entry. -/
def computeVertex (m : MathOps) (g : Generators) (p : BuildParams)
    (x y : ℕ) : VertexData :=
  let w := worldPoint m p x y
  -- line 158
  let prel := w - p.origin
  let height := vertexHeight m g p x y
  -- lines 165-167
  let h := Vec3.scale height (vertexUp m p x y)
  let pos := prel + h
  { position := pos
    colour := g.getColour ⟨w.x, w.y, height⟩
    upDir := vertexUp m p x y
    coord := w + h
    uv := (pos.x / 200, pos.y / 200)
    wsPosition := ⟨w.x, w.y, height⟩
    latitude := gridLat m p x y
    heightMask := vertexMask m p x y }

/-- The grid vertices in push order (outer loop `x`, inner loop `y`), so
the vertex of cell `(x, y)` sits at flat index `x * (resolution + 1) + y`. -/
def gridVertices (m : MathOps) (g : Generators) (p : BuildParams) :
    List VertexData :=
  (List.range (p.resolution + 1)).flatMap fun x =>
    (List.range (p.resolution + 1)).map fun y => computeVertex m g p x y

/-- The `latitudes` array (worker line 149). -/
def latitudesList (m : MathOps) (g : Generators) (p : BuildParams) : List ℚ :=
  (gridVertices m g p).map (·.latitude)

/-- The `ringHeightMask` array (worker line 150). -/
def masksList (m : MathOps) (g : Generators) (p : BuildParams) : List ℚ :=
  (gridVertices m g p).map (·.heightMask)

/-- An index triple `(indices[i], indices[i+1], indices[i+2])`. -/
abbrev Tri := ℕ × ℕ × ℕ

/-- `Math.max(latitudes[v00], latitudes[v01], latitudes[v10], latitudes[v11])`
of the quad at `(i, j)` (worker lines 195-200). -/
def quadLatMax (m : MathOps) (g : Generators) (p : BuildParams)
    (i j : ℕ) : ℚ :=
  let lats := latitudesList m g p
  let row := p.resolution + 1
  let v00 := i * row + j
  jsMax (jsMax (lats.getD v00 0) (lats.getD (v00 + 1) 0))
    (jsMax (lats.getD ((i + 1) * row + j) 0) (lats.getD ((i + 1) * row + j + 1) 0))

/-- `Math.min` of the four `ringHeightMask` entries of the quad at `(i, j)`
(worker lines 205-210). -/
def quadMaskMin (m : MathOps) (g : Generators) (p : BuildParams)
    (i j : ℕ) : ℚ :=
  let ms := masksList m g p
  let row := p.resolution + 1
  let v00 := i * row + j
  jsMin (jsMin (ms.getD v00 0) (ms.getD (v00 + 1) 0))
    (jsMin (ms.getD ((i + 1) * row + j) 0) (ms.getD ((i + 1) * row + j + 1) 0))

/-- The triangles the quad at `(i, j)` contributes (worker lines 186-223):
for a ring the quad is skipped (`continue`) when its max latitude exceeds
the clamped cull limit or its min height-mask is `≤ 0`; surviving ring
quads emit `(v00,v01,v11), (v00,v11,v10)`, non-ring quads always emit
`(v00,v11,v01), (v00,v10,v11)`. -/
def quadTris (m : MathOps) (g : Generators) (p : BuildParams)
    (i j : ℕ) : List Tri :=
  let row := p.resolution + 1
  let v00 := i * row + j
  let v01 := v00 + 1
  let v10 := (i + 1) * row + j
  let v11 := v10 + 1
  if isRing p then
    if quadLatMax m g p i j > ringCullLimit p then []
    else if quadMaskMin m g p i j ≤ 0 then []
    else [(v00, v01, v11), (v00, v11, v10)]
  else [(v00, v11, v01), (v00, v10, v11)]

/-- The emitted triangle list: the `indices` array (worker lines 186-224)
grouped into consecutive triples. -/
def triangleList (m : MathOps) (g : Generators) (p : BuildParams) :
    List Tri :=
  (List.range p.resolution).flatMap fun i =>
    (List.range p.resolution).flatMap fun j => quadTris m g p i j

/-- Grid-vertex lookup used by `_Unindex` and the normal/splat loops:
entry `v` of the per-vertex arrays. -/
def vertexAt (m : MathOps) (g : Generators) (p : BuildParams)
    (v : ℕ) : VertexData :=
  (gridVertices m g p).getD v vdDefault

/-- `positions` slot `v` (stride 3). -/
def positionAt (m : MathOps) (g : Generators) (p : BuildParams)
    (v : ℕ) : Vec3 :=
  (vertexAt m g p v).position

/-- Face normal of one triangle (worker lines 233-239):
`(_N3 - _N2) × (_N1 - _N2)`. -/
def faceNormal (m : MathOps) (g : Generators) (p : BuildParams)
    (t : Tri) : Vec3 :=
  Vec3.cross (positionAt m g p t.2.2 - positionAt m g p t.2.1)
    (positionAt m g p t.1 - positionAt m g p t.2.1)

/-- Accumulated (pre-normalization) normal of vertex slot `v`
(worker lines 226-252): each triangle adds its face normal into the slots
of its three indices. -/
def normalAccumAt (m : MathOps) (g : Generators) (p : BuildParams)
    (v : ℕ) : Vec3 :=
  (triangleList m g p).foldl
    (fun acc t =>
      let fn := faceNormal m g p t
      ((acc + (if t.1 = v then fn else 0)) + (if t.2.1 = v then fn else 0)) +
        (if t.2.2 = v then fn else 0))
    0

/-- Final per-slot normal (worker lines 254-260): the accumulated normal,
normalized. -/
def normalAt (m : MathOps) (g : Generators) (p : BuildParams)
    (v : ℕ) : Vec3 :=
  Vec3.normalize m (normalAccumAt m g p v)

/-- The splat map of vertex slot `v` (worker lines 268-275):
`GetSplat(wsPositions[v], normals[v], up[v])`. -/
def splatAt (m : MathOps) (g : Generators) (p : BuildParams)
    (v : ℕ) : String → ℚ × ℚ :=
  g.getSplat (vertexAt m g p v).wsPosition (normalAt m g p v)
    (vertexAt m g p v).upDir

/-- Summed strength of texture type `k` over the three vertices of
triangle `t` (worker lines 277-285). -/
def triStrength (m : MathOps) (g : Generators) (p : BuildParams)
    (t : Tri) (k : String) : ℚ :=
  (splatAt m g p t.1 k).2 + (splatAt m g p t.2.1 k).2 +
    (splatAt m g p t.2.2 k).2

/-- Comparison used by the `typeValues.sort` comparator (worker lines
288-296): descending strength, ties stable. -/
def strengthGe (u v : String × ℚ) : Prop := v.2 ≤ u.2

instance : DecidableRel strengthGe := fun u v => inferInstanceAs (Decidable (v.2 ≤ u.2))

instance : IsTotal (String × ℚ) strengthGe := ⟨fun a b => le_total b.2 a.2⟩

instance : IsTrans (String × ℚ) strengthGe :=
  ⟨fun _ _ _ hab hbc => le_trans hbc hab⟩

/-- `typeValues` after the descending stable sort (worker lines 287-296):
the key list paired with summed strengths, sorted by descending strength
(ties in original key order, as the JS stable sort). -/
def triSortedTypes (m : MathOps) (g : Generators) (p : BuildParams)
    (t : Tri) : List (String × ℚ) :=
  (g.splatKeys.map fun k => (k, triStrength m g p t k)).insertionSort strengthGe

/-- `typeValues[i].key`. -/
def triKey (m : MathOps) (g : Generators) (p : BuildParams)
    (t : Tri) (i : ℕ) : String :=
  ((triSortedTypes m g p t).getD i ("", 0)).1

/-- Per-vertex normalization total (worker lines 302-308): the sum of one
vertex's strengths over the four strongest types. -/
def vertTotal (m : MathOps) (g : Generators) (p : BuildParams)
    (t : Tri) (v : ℕ) : ℚ :=
  (splatAt m g p v (triKey m g p t 0)).2 + (splatAt m g p v (triKey m g p t 1)).2 +
    (splatAt m g p v (triKey m g p t 2)).2 + (splatAt m g p v (triKey m g p t 3)).2

/-- Normalized strength written to `weights2` for vertex slot `v`, type
slot `i` (worker lines 308-313): `strength * (1 / total)`. -/
def normStrength (m : MathOps) (g : Generators) (p : BuildParams)
    (t : Tri) (v : ℕ) (i : ℕ) : ℚ :=
  (splatAt m g p v (triKey m g p t i)).2 * (1 / vertTotal m g p t v)

/-- The 12 `weights1` entries of one triangle (worker lines 316-329):
for each of the three vertices, the texture indices of the 4th-, 3rd-,
2nd- and 1st-strongest type, in that order. -/
def triW1 (m : MathOps) (g : Generators) (p : BuildParams)
    (t : Tri) : List ℚ :=
  [(splatAt m g p t.1 (triKey m g p t 3)).1,
   (splatAt m g p t.1 (triKey m g p t 2)).1,
   (splatAt m g p t.1 (triKey m g p t 1)).1,
   (splatAt m g p t.1 (triKey m g p t 0)).1,
   (splatAt m g p t.2.1 (triKey m g p t 3)).1,
   (splatAt m g p t.2.1 (triKey m g p t 2)).1,
   (splatAt m g p t.2.1 (triKey m g p t 1)).1,
   (splatAt m g p t.2.1 (triKey m g p t 0)).1,
   (splatAt m g p t.2.2 (triKey m g p t 3)).1,
   (splatAt m g p t.2.2 (triKey m g p t 2)).1,
   (splatAt m g p t.2.2 (triKey m g p t 1)).1,
   (splatAt m g p t.2.2 (triKey m g p t 0)).1]

/-- The 12 `weights2` entries of one triangle (worker lines 331-344). -/
def triW2 (m : MathOps) (g : Generators) (p : BuildParams)
    (t : Tri) : List ℚ :=
  [normStrength m g p t t.1 3, normStrength m g p t t.1 2,
   normStrength m g p t t.1 1, normStrength m g p t t.1 0,
   normStrength m g p t t.2.1 3, normStrength m g p t t.2.1 2,
   normStrength m g p t t.2.1 1, normStrength m g p t t.2.1 0,
   normStrength m g p t t.2.2 3, normStrength m g p t t.2.2 2,
   normStrength m g p t t.2.2 1, normStrength m g p t t.2.2 0]

/-- Flatten a `Vec3` into its three floats. -/
def vecFloats (v : Vec3) : List ℚ := [v.x, v.y, v.z]

/-- The seven typed arrays of a `build_chunk_result`
(worker lines 367-414). -/
structure BuildResult where
  positions : List ℚ
  colours : List ℚ
  uvs : List ℚ
  normals : List ℚ
  coords : List ℚ
  weights1 : List ℚ
  weights2 : List ℚ
deriving DecidableEq, Repr

/-- `Rebuild`'s return value: every attribute array unindexed by
`_Unindex` (worker lines 347-414) — per emitted triangle, the three
vertices' values duplicated in index order. -/
def Rebuild (m : MathOps) (g : Generators) (p : BuildParams) : BuildResult :=
  let tris := triangleList m g p
  { positions := tris.flatMap fun t =>
      vecFloats (positionAt m g p t.1) ++ vecFloats (positionAt m g p t.2.1) ++
        vecFloats (positionAt m g p t.2.2)
    colours := tris.flatMap fun t =>
      [(vertexAt m g p t.1).colour.r, (vertexAt m g p t.1).colour.g,
       (vertexAt m g p t.1).colour.b,
       (vertexAt m g p t.2.1).colour.r, (vertexAt m g p t.2.1).colour.g,
       (vertexAt m g p t.2.1).colour.b,
       (vertexAt m g p t.2.2).colour.r, (vertexAt m g p t.2.2).colour.g,
       (vertexAt m g p t.2.2).colour.b]
    uvs := tris.flatMap fun t =>
      [(vertexAt m g p t.1).uv.1, (vertexAt m g p t.1).uv.2,
       (vertexAt m g p t.2.1).uv.1, (vertexAt m g p t.2.1).uv.2,
       (vertexAt m g p t.2.2).uv.1, (vertexAt m g p t.2.2).uv.2]
    normals := tris.flatMap fun t =>
      vecFloats (normalAt m g p t.1) ++ vecFloats (normalAt m g p t.2.1) ++
        vecFloats (normalAt m g p t.2.2)
    coords := tris.flatMap fun t =>
      vecFloats (vertexAt m g p t.1).coord ++
        vecFloats (vertexAt m g p t.2.1).coord ++
        vecFloats (vertexAt m g p t.2.2).coord
    weights1 := tris.flatMap fun t => triW1 m g p t
    weights2 := tris.flatMap fun t => triW2 m g p t }

end Worker

namespace Ocean

/-- Latitude of an ocean grid point (ocean.js lines 310-312): absolute `y`
of the normalized transformed position. -/
def ringLatitude (m : MathOps) (v : Vec3) : ℚ := jsAbs (Vec3.normalize m v).y

/-- Ring projection of one ocean vertex (ocean.js lines 308-330): normalize,
split into the equatorial direction (with the same `1e-8` fallback), scale
to the ocean radius with vertical offset `d.y * oceanRadius`, then add the
ring center. -/
def ringVertex (m : MathOps) (r : ℚ) (c : Vec3) (v : Vec3) : Vec3 :=
  let d := Vec3.normalize m v
  let e0 : Vec3 := ⟨d.x, 0, d.z⟩
  let eqDir := if Vec3.lengthSq e0 < 1e-8 then (⟨1, 0, 0⟩ : Vec3)
    else Vec3.normalize m e0
  let verticalOffset := d.y * r
  (⟨eqDir.x * r, verticalOffset, eqDir.z * r⟩ : Vec3) + c

/-- Sphere projection of one ocean vertex (ocean.js lines 337-343):
normalize, then scale to the ocean radius (no center offset for planets). -/
def sphereVertex (m : MathOps) (r : ℚ) (v : Vec3) : Vec3 :=
  Vec3.scale r (Vec3.normalize m v)

end Ocean

/-! ## Helper lemmas -/

namespace Worker

/-- Length of a `flatMap` whose blocks all have the same length. -/
theorem length_flatMap_const {α β : Type} (l : List α) (f : α → List β)
    (n : ℕ) (h : ∀ a ∈ l, (f a).length = n) :
    (l.flatMap f).length = n * l.length := by
  induction l with
  | nil => simp
  | cons a l ih =>
    simp only [List.flatMap_cons, List.length_append, List.length_cons]
    rw [h a (List.mem_cons_self a l), ih fun b hb => h b (List.mem_cons_of_mem a hb)]
    ring

/-- `foldl` congruence for step functions that agree on list members. -/
theorem foldl_congr_mem {α β : Type} {l : List α} {f₁ f₂ : β → α → β} {b : β}
    (h : ∀ x ∈ l, ∀ acc, f₁ acc x = f₂ acc x) :
    l.foldl f₁ b = l.foldl f₂ b := by
  induction l generalizing b with
  | nil => rfl
  | cons a l ih =>
    simp only [List.foldl_cons]
    rw [h a (List.mem_cons_self a l)]
    exact ih fun x hx acc => h x (List.mem_cons_of_mem a hx) acc

/-- `flatMap` congruence for block functions that agree on list members. -/
theorem flatMap_congr_mem {α β : Type} {l : List α} {f₁ f₂ : α → List β}
    (h : ∀ x ∈ l, f₁ x = f₂ x) : l.flatMap f₁ = l.flatMap f₂ := by
  induction l with
  | nil => rfl
  | cons a l ih =>
    simp only [List.flatMap_cons]
    rw [h a (List.mem_cons_self a l), ih fun x hx => h x (List.mem_cons_of_mem a hx)]

/-- `getD` of a mapped list, in range. -/
theorem getD_map_lt {α β : Type} {l : List α} {v : ℕ} (f : α → β)
    (d : α) (d' : β) (hv : v < l.length) :
    (l.map f).getD v d' = f (l.getD v d) := by
  induction l generalizing v with
  | nil => simp at hv
  | cons a l ih =>
    cases v with
    | zero => rfl
    | succ v =>
      simp only [List.map_cons, List.getD_cons_succ]
      exact ih (Nat.lt_of_succ_lt_succ hv)

/-- `getD` of a mapped list, out of range. -/
theorem getD_map_ge {α β : Type} {l : List α} {v : ℕ} (f : α → β)
    (d' : β) (hv : l.length ≤ v) :
    (l.map f).getD v d' = d' := by
  apply List.getD_eq_default
  simpa using hv

end Worker

/-! ## Concrete instances used by witnesses and counterexamples -/

/-- Math interpretation whose `sqrt` is the constant `1` and whose `pow` is
the first projection; it agrees with JS `Math.pow` on the base values `0`
and `1` that the concrete runs below evaluate it at. -/
def mId : MathOps := ⟨fun _ => 1, fun b _ => b⟩

/-- Math interpretation with `sqrt ≡ 10` (so a unit direction acquires
latitude `1/10`) and first-projection `pow`. -/
def mTen : MathOps := ⟨fun _ => 10, fun b _ => b⟩

/-- Math interpretation with `sqrt ≡ 50` (so a unit direction acquires
latitude `1/50`) and first-projection `pow`. -/
def mFifty : MathOps := ⟨fun _ => 50, fun b _ => b⟩

/-- Trivial generators: flat terrain, black colour, empty splats over four
texture keys. -/
def gTriv : Generators :=
  { heightGen := fun _ => 0
    getColour := fun _ => ⟨0, 0, 0⟩
    getSplat := fun _ _ _ _ => (0, 0)
    splatKeys := ["a", "b", "c", "d"] }

/-- World matrix mapping every point to `(0, 1, 0)` (zero linear part,
translation `(0,1,0)`, unit homogeneous row). -/
def matTo010 : Mat4 := ⟨0, 0, 0, 0, 0, 0, 0, 0, 0, 0, 0, 0, 0, 1, 0, 1⟩

/-- World matrix mapping every point to `(1, 0, 0)`. -/
def matTo100 : Mat4 := ⟨0, 0, 0, 0, 0, 0, 0, 0, 0, 0, 0, 0, 1, 0, 0, 1⟩

/-- A ring build request whose every grid vertex lands at latitude 1 (all
quads culled by the default cull latitude 0.48). -/
def pCulled : BuildParams :=
  { worldMatrix := matTo010, resolution := 1, radius := 1, offset := 0,
    origin := 0, width := 1, center := 0, shape := "ring", shapeParams := {} }

/-- The spec scenario's ring request: `latCutoff = 0.02`, `latFade = 0.05`,
default `dropExponent = 1.5`; every vertex direction is `(0,1,0)`, so its
latitude is `1 / sqrt(1)` for the chosen `sqrt` interpretation. -/
def pScenario : BuildParams :=
  { worldMatrix := matTo010, resolution := 1, radius := 0, offset := 0,
    origin := 0, width := 0, center := 0, shape := "ring",
    shapeParams := { latCutoff := some 0.02, latFade := some 0.05 } }

/-- A ring request with a negative `cullLatitude = -5` (clamped to `0` by
the worker): every grid vertex lands at latitude `0` with mask `1`, so
triangles survive although their latitude exceeds the raw `cullLatitude`. -/
def pNegCull : BuildParams :=
  { worldMatrix := matTo100, resolution := 1, radius := 1, offset := 0,
    origin := 0, width := 1, center := 0, shape := "ring",
    shapeParams := { latCutoff := some 0, cullLatitude := some (-5) } }

/-- A ring request whose vertices (latitude `1/10`, mask `1`) pass both
ring culling tests, so both quad triangles are emitted. -/
def pRingOk : BuildParams :=
  { worldMatrix := matTo010, resolution := 1, radius := 0, offset := 0,
    origin := 0, width := 0, center := 0, shape := "ring",
    shapeParams :=
      { latCutoff := some 0.5
        latFade := some 0.05
        cullLatitude := some 0.5 } }

/-- A non-ring (planet) build request at resolution 1. -/
def pPlain : BuildParams :=
  { worldMatrix := matTo010, resolution := 1, radius := 1, offset := 0,
    origin := 0, width := 1, center := 0, shape := "planet",
    shapeParams := {} }

/-- A non-ring (planet) build request at resolution 0: a 1×1 vertex grid
with zero quads. -/
def pRes0 : BuildParams :=
  { worldMatrix := matTo010, resolution := 0, radius := 1, offset := 0,
    origin := 0, width := 1, center := 0, shape := "planet",
    shapeParams := {} }

/-! ## Claim theorems -/

/-- C8: the chunk build never raises on malformed shape parameters: before
any use, `latFade` is clamped to a minimum of `1e-5` (so the mask
computation divides by a strictly positive value), `latCutoff` is clamped
into `[0,1]`, and the effective cull latitude is clamped into `[0,1]`,
being `Infinity` (modelled `none`) exactly for non-ring shapes. `Rebuild`
is a total function of its parameters in this embedding, so it completes
on every input, including negative or zero `latFade`. -/
theorem shape_param_clamping_safety (p : BuildParams) :
    (1e-5 : ℚ) ≤ Worker.latFadeSafe p ∧
    0 < Worker.latFadeSafe p ∧
    0 ≤ Worker.latCutoffClamped p ∧
    Worker.latCutoffClamped p ≤ 1 ∧
    0 ≤ Worker.ringCullLimit p ∧
    Worker.ringCullLimit p ≤ 1 ∧
    Worker.cullLatitudeLimit p =
      (if Worker.isRing p then some (Worker.ringCullLimit p) else none) := by
  refine ⟨le_max_left _ _, lt_of_lt_of_le (by norm_num) (le_max_left _ _),
    le_max_left _ _, max_le (by norm_num) (min_le_left _ _),
    le_max_left _ _, max_le (by norm_num) (min_le_left _ _), rfl⟩

/-- C1: for every ring build request with in-range fade parameters
(`latCutoff ∈ [0,1]`, `latFade ≥ 1e-5`, the range in which the defensive
clamps of worker lines 95-96 are the identity) and every grid vertex, the
height mask is `1 - clamp01((|lat| - latCutoff) / latFade) ^ dropExponent`
of the vertex latitude, and the vertex is displaced from the world surface
point along its up vector by the sampled height multiplied by this mask.
In the spec scenario (`latCutoff=0.02`, `latFade=0.05`, any exponent with
`pow 1 e = 1` and `pow 0 e = 0`, as `e = 1.5` has), a vertex at latitude
`0.1` gets mask `0` and a vertex at latitude `0.02` gets mask `1`. -/
theorem ring_height_mask_formula (m : MathOps) (g : Generators)
    (p : BuildParams) (x y : ℕ) (hr : Worker.isRing p = true)
    (hc0 : 0 ≤ Worker.latCutoff p) (hc1 : Worker.latCutoff p ≤ 1)
    (hf : (1e-5 : ℚ) ≤ Worker.latFade p) :
    ((Worker.computeVertex m g p x y).heightMask =
      1 - m.pow
        (jsMin 1 (jsMax 0
          (((Worker.computeVertex m g p x y).latitude - Worker.latCutoff p) /
            Worker.latFade p)))
        (Worker.dropExponent p)) ∧
    ((Worker.computeVertex m g p x y).coord = Worker.worldPoint m p x y +
      Vec3.scale
        (g.heightGen (Worker.worldPoint m p x y) *
          (Worker.computeVertex m g p x y).heightMask)
        (Worker.vertexUp m p x y)) ∧
    (m.pow 1 (Worker.dropExponent p) = 1 → Worker.latCutoff p = 0.02 →
      Worker.latFade p = 0.05 → (Worker.computeVertex m g p x y).latitude = 0.1 →
      (Worker.computeVertex m g p x y).heightMask = 0) ∧
    (m.pow 0 (Worker.dropExponent p) = 0 → Worker.latCutoff p = 0.02 →
      (Worker.computeVertex m g p x y).latitude = 0.02 →
      (Worker.computeVertex m g p x y).heightMask = 1) := by
  have hcut : Worker.latCutoffClamped p = Worker.latCutoff p := by
    rw [Worker.latCutoffClamped, jsMin_eq_min, jsMax_eq_max,
      min_eq_right hc1, max_eq_right hc0]
  have hfade : Worker.latFadeSafe p = Worker.latFade p := by
    rw [Worker.latFadeSafe, jsMax_eq_max, max_eq_right hf]
  have hmask : (Worker.computeVertex m g p x y).heightMask =
      Worker.ringMask m p (Worker.gridLat m p x y) := by
    simp [Worker.computeVertex, Worker.vertexMask, hr]
  have hlat : (Worker.computeVertex m g p x y).latitude =
      Worker.gridLat m p x y := rfl
  refine ⟨?_, ?_, ?_, ?_⟩
  · rw [hmask, hlat, Worker.ringMask, Worker.ringBlendRaw, hcut, hfade]
  · have hh : Worker.vertexHeight m g p x y =
        g.heightGen (Worker.worldPoint m p x y) *
          (Worker.computeVertex m g p x y).heightMask := by
      rw [hmask]
      simp [Worker.vertexHeight, Worker.vertexMask, hr]
    rw [← hh]
    rfl
  · intro hpow hcut02 hfade05 hlat01
    rw [hmask, Worker.ringMask, Worker.ringBlendRaw, hcut, hfade, ← hlat,
      hlat01, hcut02, hfade05]
    have hb : jsMin 1 (jsMax 0 (((0.1 : ℚ) - 0.02) / 0.05)) = 1 := by
      norm_num [jsMax, jsMin]
    rw [hb, hpow]
    norm_num
  · intro hpow hcut02 hlat02
    rw [hmask, Worker.ringMask, Worker.ringBlendRaw, hcut, ← hlat,
      hlat02, hcut02]
    have hb : jsMin 1 (jsMax 0 (((0.02 : ℚ) - 0.02) / Worker.latFadeSafe p)) = 0 := by
      norm_num [jsMax, jsMin]
    rw [hb, hpow]
    norm_num

unseal Rat.add Rat.mul Rat.inv Rat.sub Rat.ofScientific in
/-- Witness for C1 at the spec scenario: with `latCutoff = 0.02`,
`latFade = 0.05`, a concrete grid vertex at latitude `0.1` has height mask
`0`, and one at latitude `0.02` has height mask `1`. -/
theorem ring_height_mask_formula_witness :
    (Worker.computeVertex mTen gTriv pScenario 0 0).latitude = 0.1 ∧
    (Worker.computeVertex mTen gTriv pScenario 0 0).heightMask = 0 ∧
    (Worker.computeVertex mFifty gTriv pScenario 0 0).latitude = 0.02 ∧
    (Worker.computeVertex mFifty gTriv pScenario 0 0).heightMask = 1 :=
  ⟨by decide,
   (ring_height_mask_formula mTen gTriv pScenario 0 0 (by decide) (by decide)
      (by decide) (by decide)).2.2.1 rfl (by decide) (by decide) (by decide),
   by decide,
   (ring_height_mask_formula mFifty gTriv pScenario 0 0 (by decide) (by decide)
      (by decide) (by decide)).2.2.2 rfl (by decide) (by decide)⟩

/-- C9: the ocean chunk builder reproduces the terrain builder's
shape-projection math. For every transformed grid point `v`, ocean radius
`r`, ring center `c`: the ocean's sphere projection equals the terrain
worker's `sphereProject`; the ocean's ring vertex equals the worker's
`ringProjectPos` of the normalized direction plus the center; the two
compute the same latitude; and the ocean point coincides with the terrain
ring vertex formula — projection plus `up * (height * heightMask)`, the
worker's latitude-fade treatment — evaluated at the ocean's surface height
`0`. -/
theorem ocean_matches_terrain_projection (m : MathOps) (p : BuildParams)
    (r : ℚ) (c v : Vec3) :
    Ocean.sphereVertex m r v = Worker.sphereProject m r v ∧
    Ocean.ringVertex m r c v =
      Worker.ringProjectPos m r (Vec3.normalize m v) + c ∧
    Ocean.ringLatitude m v = jsAbs (Vec3.normalize m v).y ∧
    Ocean.ringVertex m r c v =
      (Worker.ringProjectPos m r (Vec3.normalize m v) + c) +
        Vec3.scale ((0 : ℚ) * Worker.ringMask m p (Ocean.ringLatitude m v))
          (Worker.ringUpDir m (Vec3.normalize m v)) := by
  refine ⟨rfl, rfl, rfl, ?_⟩
  show _ = Worker.ringProjectPos m r (Vec3.normalize m v) + c +
    Vec3.scale _ _
  simp only [Vec3.scale, zero_mul, mul_zero, Vec3.add_def, add_zero]
  rfl

/-- C2 (amended): for every ring build request, every triangle in the
emitted triangle list comes from a quad whose maximum vertex latitude is
at most the *clamped* cull latitude `max(0, min(1, cullLatitude))` and
whose minimum height mask is strictly positive; and any quad violating
either condition contributes no triangles. (With the raw, unclamped
`cullLatitude` the claim fails: see the counterexample with
`cullLatitude = -5`.) -/
theorem ring_cull_invariant (m : MathOps) (g : Generators) (p : BuildParams)
    (hr : Worker.isRing p = true) (t : Worker.Tri)
    (ht : t ∈ Worker.triangleList m g p) :
    (∃ i j, i < p.resolution ∧ j < p.resolution ∧
      t ∈ Worker.quadTris m g p i j ∧
      Worker.quadLatMax m g p i j ≤ Worker.ringCullLimit p ∧
      0 < Worker.quadMaskMin m g p i j) ∧
    (∀ i j, Worker.ringCullLimit p < Worker.quadLatMax m g p i j ∨
      Worker.quadMaskMin m g p i j ≤ 0 →
      Worker.quadTris m g p i j = []) := by
  constructor
  · obtain ⟨i, hi, hti⟩ := List.mem_flatMap.mp ht
    obtain ⟨j, hj, htj⟩ := List.mem_flatMap.mp hti
    have hpass : Worker.quadLatMax m g p i j ≤ Worker.ringCullLimit p ∧
        0 < Worker.quadMaskMin m g p i j := by
      by_cases h1 : Worker.ringCullLimit p < Worker.quadLatMax m g p i j
      · simp only [Worker.quadTris, hr] at htj
        simp [h1] at htj
      · by_cases h2 : Worker.quadMaskMin m g p i j ≤ 0
        · simp only [Worker.quadTris, hr] at htj
          simp [h1, h2] at htj
        · exact ⟨not_lt.mp h1, not_le.mp h2⟩
    exact ⟨i, j, List.mem_range.mp hi, List.mem_range.mp hj, htj,
      hpass.1, hpass.2⟩
  · intro i j h
    simp only [Worker.quadTris, hr, if_true]
    split_ifs with h1 h2
    · rfl
    · rfl
    · rcases h with h | h
      · exact absurd h h1
      · exact absurd h h2

unseal Rat.add Rat.mul Rat.inv Rat.sub Rat.ofScientific in
/-- Counterexample for C2 as literally stated: with `cullLatitude = -5`
(ring request `pNegCull`, resolution 1, every vertex at latitude 0 with
mask 1) the triangle `(0,1,3)` is emitted from the only quad `(0,0)`, yet
that quad's maximum vertex latitude `0` exceeds the raw `cullLatitude`.
The worker compares against the clamp `max(0, min(1, cullLatitude)) = 0`,
not against `cullLatitude` itself. -/
theorem ring_cull_invariant_counterexample :
    Worker.isRing pNegCull = true ∧
    pNegCull.resolution = 1 ∧
    ((0, 1, 3) : Worker.Tri) ∈ Worker.triangleList mId gTriv pNegCull ∧
    ((0, 1, 3) : Worker.Tri) ∈ Worker.quadTris mId gTriv pNegCull 0 0 ∧
    Worker.cullLatitude pNegCull < Worker.quadLatMax mId gTriv pNegCull 0 0 := by
  refine ⟨by decide, rfl, by decide, by decide, by decide⟩

unseal Rat.add Rat.mul Rat.inv Rat.sub Rat.ofScientific in
/-- Witness for C2 (amended) on a concrete surviving ring triangle. -/
theorem ring_cull_invariant_witness :
    ((0, 1, 3) : Worker.Tri) ∈ Worker.triangleList mTen gTriv pRingOk ∧
    ((∃ i j, i < pRingOk.resolution ∧ j < pRingOk.resolution ∧
        ((0, 1, 3) : Worker.Tri) ∈ Worker.quadTris mTen gTriv pRingOk i j ∧
        Worker.quadLatMax mTen gTriv pRingOk i j ≤
          Worker.ringCullLimit pRingOk ∧
        0 < Worker.quadMaskMin mTen gTriv pRingOk i j) ∧
      (∀ i j,
        Worker.ringCullLimit pRingOk < Worker.quadLatMax mTen gTriv pRingOk i j ∨
        Worker.quadMaskMin mTen gTriv pRingOk i j ≤ 0 →
        Worker.quadTris mTen gTriv pRingOk i j = [])) :=
  ⟨by decide,
   ring_cull_invariant mTen gTriv pRingOk (by decide) (0, 1, 3) (by decide)⟩

/-- C3: a fully culled chunk (zero surviving triangles) still builds
normally: all seven output arrays of the `BuildResult` are present with
length 0; no error path exists (`Rebuild` is total). -/
theorem fully_culled_build_returns_empty_arrays (m : MathOps)
    (g : Generators) (p : BuildParams)
    (h : Worker.triangleList m g p = []) :
    (Worker.Rebuild m g p).positions = [] ∧
    (Worker.Rebuild m g p).colours = [] ∧
    (Worker.Rebuild m g p).uvs = [] ∧
    (Worker.Rebuild m g p).normals = [] ∧
    (Worker.Rebuild m g p).coords = [] ∧
    (Worker.Rebuild m g p).weights1 = [] ∧
    (Worker.Rebuild m g p).weights2 = [] := by
  simp [Worker.Rebuild, h]

unseal Rat.add Rat.mul Rat.inv Rat.sub Rat.ofScientific in
/-- Witness for C3: a concrete ring request (every grid vertex at latitude
1, far beyond the default cull latitude 0.48) is fully culled, and the
build returns all seven arrays empty. -/
theorem fully_culled_build_returns_empty_arrays_witness :
    Worker.triangleList mId gTriv pCulled = [] ∧
    ((Worker.Rebuild mId gTriv pCulled).positions = [] ∧
      (Worker.Rebuild mId gTriv pCulled).colours = [] ∧
      (Worker.Rebuild mId gTriv pCulled).uvs = [] ∧
      (Worker.Rebuild mId gTriv pCulled).normals = [] ∧
      (Worker.Rebuild mId gTriv pCulled).coords = [] ∧
      (Worker.Rebuild mId gTriv pCulled).weights1 = [] ∧
      (Worker.Rebuild mId gTriv pCulled).weights2 = []) :=
  ⟨by decide, fully_culled_build_returns_empty_arrays mId gTriv pCulled (by decide)⟩

/-- C4: the chunk build is deterministic: two `Init`+`Rebuild` runs with
identical parameter sets (and hence, the generators being pure functions of
their construction parameters, identical generator functions and identical
math interpretations) produce identical `BuildResult`s. In this embedding
`Rebuild` reads nothing but its three arguments and uses no randomness,
clock, or mutable global state, so any two runs — on any threads — agree. -/
theorem rebuild_deterministic (m₁ m₂ : MathOps) (g₁ g₂ : Generators)
    (p₁ p₂ : BuildParams) (hm : m₁ = m₂) (hg : g₁ = g₂) (hp : p₁ = p₂) :
    Worker.Rebuild m₁ g₁ p₁ = Worker.Rebuild m₂ g₂ p₂ := by
  rw [hm, hg, hp]

/-- Witness for C4: two runs on the same concrete request agree. -/
theorem rebuild_deterministic_witness :
    Worker.Rebuild mId gTriv pCulled = Worker.Rebuild mId gTriv pCulled :=
  rebuild_deterministic mId mId gTriv gTriv pCulled pCulled rfl rfl rfl

/-- C6: every `BuildResult` is fully unindexed with one fixed-size group of
3 duplicated vertices per surviving triangle: with `T` emitted triangles,
positions, normals, colours and coords hold `9*T` floats, uvs `6*T`, and
weights1/weights2 `12*T` each; the result record carries no index array. -/
theorem output_unindexed_array_sizes (m : MathOps) (g : Generators)
    (p : BuildParams) :
    (Worker.Rebuild m g p).positions.length =
      9 * (Worker.triangleList m g p).length ∧
    (Worker.Rebuild m g p).colours.length =
      9 * (Worker.triangleList m g p).length ∧
    (Worker.Rebuild m g p).normals.length =
      9 * (Worker.triangleList m g p).length ∧
    (Worker.Rebuild m g p).coords.length =
      9 * (Worker.triangleList m g p).length ∧
    (Worker.Rebuild m g p).uvs.length =
      6 * (Worker.triangleList m g p).length ∧
    (Worker.Rebuild m g p).weights1.length =
      12 * (Worker.triangleList m g p).length ∧
    (Worker.Rebuild m g p).weights2.length =
      12 * (Worker.triangleList m g p).length := by
  refine ⟨?_, ?_, ?_, ?_, ?_, ?_, ?_⟩ <;>
    simp only [Worker.Rebuild] <;>
    apply Worker.length_flatMap_const <;>
    intro t _ <;> simp [Worker.vecFloats, Worker.triW1, Worker.triW2]

/-- C10 (amended): for every non-ring build request culling is skipped, so
exactly `2 * resolution²` triangles are emitted and the positions array has
its full fixed size of `18 * resolution²` floats; consequently an empty
non-ring build is possible only at `resolution = 0` (the claim's "empty
geometry only for rings" fails at resolution 0, see the counterexample). -/
theorem nonring_full_grid_output (m : MathOps) (g : Generators)
    (p : BuildParams) (hnr : Worker.isRing p = false) :
    (Worker.triangleList m g p).length = 2 * p.resolution ^ 2 ∧
    (Worker.Rebuild m g p).positions.length = 18 * p.resolution ^ 2 ∧
    ((Worker.Rebuild m g p).positions = [] → p.resolution = 0) := by
  have htris : (Worker.triangleList m g p).length = 2 * p.resolution ^ 2 := by
    rw [Worker.triangleList]
    rw [Worker.length_flatMap_const _ _ (2 * p.resolution) ?_]
    · simp [List.length_range]; ring
    · intro i _
      rw [Worker.length_flatMap_const _ _ 2 ?_]
      · simp [List.length_range, Nat.mul_comm]
      · intro j _
        simp [Worker.quadTris, hnr]
  have hpos : (Worker.Rebuild m g p).positions.length = 18 * p.resolution ^ 2 := by
    have h9 : (Worker.Rebuild m g p).positions.length =
        9 * (Worker.triangleList m g p).length := by
      simp only [Worker.Rebuild]
      apply Worker.length_flatMap_const
      intro t _
      simp [Worker.vecFloats]
    rw [h9, htris]; ring
  refine ⟨htris, hpos, fun hempty => ?_⟩
  have : (18 : ℕ) * p.resolution ^ 2 = 0 := by rw [← hpos, hempty]; rfl
  have h2 : p.resolution ^ 2 = 0 := by omega
  exact pow_eq_zero_iff (n := 2) (by norm_num) |>.mp h2

/-- Witness for C10 at a concrete planet request with resolution 1:
2 triangles, 18 position floats. -/
theorem nonring_full_grid_output_witness :
    Worker.isRing pPlain = false ∧
    ((Worker.triangleList mId gTriv pPlain).length = 2 * pPlain.resolution ^ 2 ∧
      (Worker.Rebuild mId gTriv pPlain).positions.length =
        18 * pPlain.resolution ^ 2 ∧
      ((Worker.Rebuild mId gTriv pPlain).positions = [] →
        pPlain.resolution = 0)) :=
  ⟨by decide, nonring_full_grid_output mId gTriv pPlain (by decide)⟩

/-- Counterexample for C10's final clause ("the empty-geometry outcome is
reachable only for ring chunks"): a planet request at resolution 0 emits
no triangles and returns an empty positions array. -/
theorem nonring_empty_counterexample :
    Worker.isRing pRes0 = false ∧
    Worker.triangleList mId gTriv pRes0 = [] ∧
    (Worker.Rebuild mId gTriv pRes0).positions = [] := by
  refine ⟨by decide, by decide, by decide⟩

/-- Four nonzero-total strengths, each rescaled by the reciprocal of their
(differently associated) total, sum to 1. -/
theorem norm4_sum (s0 s1 s2 s3 : ℚ) (h : s0 + s1 + s2 + s3 ≠ 0) :
    s3 * (1 / (s0 + s1 + s2 + s3)) + (s2 * (1 / (s0 + s1 + s2 + s3)) +
      (s1 * (1 / (s0 + s1 + s2 + s3)) + (s0 * (1 / (s0 + s1 + s2 + s3)) + 0))) = 1 := by
  field_simp
  ring

/-- C5: for every emitted triangle, the four texture types kept are the
four with the largest strengths summed over the triangle's three vertices
(the sorted type list is a permutation of the per-key summed strengths,
every kept entry dominates every dropped entry, and the four kept slots
are in descending strength order, so slot 3 — written first — is the
weakest of the four). Under the texture-splatter property that a type's
texture index does not depend on the sample point (`hidx`), all three
vertices receive the same four indices in `weights1`, weakest first.
For each vertex whose selected-four total is nonzero, the four `weights2`
strengths are that vertex's strengths for the chosen types rescaled by the
reciprocal of their total, so each vertex's four weights sum to 1. -/
theorem triangle_texture_weights_top4 (m : MathOps) (g : Generators)
    (p : BuildParams) (idx : String → ℚ)
    (hidx : ∀ a n u k, (g.getSplat a n u k).1 = idx k)
    (t : Worker.Tri) (ht : t ∈ Worker.triangleList m g p)
    (h1 : Worker.vertTotal m g p t t.1 ≠ 0)
    (h2 : Worker.vertTotal m g p t t.2.1 ≠ 0)
    (h3 : Worker.vertTotal m g p t t.2.2 ≠ 0) :
    (Worker.triW1 m g p t =
      [idx (Worker.triKey m g p t 3), idx (Worker.triKey m g p t 2),
       idx (Worker.triKey m g p t 1), idx (Worker.triKey m g p t 0)] ++
      [idx (Worker.triKey m g p t 3), idx (Worker.triKey m g p t 2),
       idx (Worker.triKey m g p t 1), idx (Worker.triKey m g p t 0)] ++
      [idx (Worker.triKey m g p t 3), idx (Worker.triKey m g p t 2),
       idx (Worker.triKey m g p t 1), idx (Worker.triKey m g p t 0)]) ∧
    (Worker.triSortedTypes m g p t).Perm
      (g.splatKeys.map fun k => (k, Worker.triStrength m g p t k)) ∧
    (∀ u ∈ (Worker.triSortedTypes m g p t).take 4,
      ∀ w ∈ (Worker.triSortedTypes m g p t).drop 4, w.2 ≤ u.2) ∧
    (4 ≤ g.splatKeys.length →
      ((Worker.triSortedTypes m g p t).getD 3 ("", 0)).2 ≤
          ((Worker.triSortedTypes m g p t).getD 2 ("", 0)).2 ∧
        ((Worker.triSortedTypes m g p t).getD 2 ("", 0)).2 ≤
          ((Worker.triSortedTypes m g p t).getD 1 ("", 0)).2 ∧
        ((Worker.triSortedTypes m g p t).getD 1 ("", 0)).2 ≤
          ((Worker.triSortedTypes m g p t).getD 0 ("", 0)).2) ∧
    (((Worker.triW2 m g p t).take 4).sum = 1 ∧
      (((Worker.triW2 m g p t).drop 4).take 4).sum = 1 ∧
      ((Worker.triW2 m g p t).drop 8).sum = 1) := by
  have hsorted : (Worker.triSortedTypes m g p t).Sorted Worker.strengthGe :=
    List.sorted_insertionSort Worker.strengthGe _
  refine ⟨?_, List.perm_insertionSort Worker.strengthGe _, ?_, ?_, ?_, ?_, ?_⟩
  · simp [Worker.triW1, Worker.splatAt, hidx]
  · intro u hu w hw
    exact hsorted.rel_of_mem_take_of_mem_drop hu hw
  · intro hk
    have hlen : 4 ≤ (Worker.triSortedTypes m g p t).length := by
      rw [Worker.triSortedTypes, List.length_insertionSort, List.length_map]
      exact hk
    have hget : ∀ i j : ℕ, ∀ hi : i < (Worker.triSortedTypes m g p t).length,
        ∀ hj : j < (Worker.triSortedTypes m g p t).length, i < j →
        ((Worker.triSortedTypes m g p t).getD j ("", 0)).2 ≤
          ((Worker.triSortedTypes m g p t).getD i ("", 0)).2 := by
      intro i j hi hj hij
      rw [List.getD_eq_getElem _ _ hi, List.getD_eq_getElem _ _ hj]
      exact hsorted.rel_get_of_lt (a := ⟨i, hi⟩) (b := ⟨j, hj⟩) hij
    exact ⟨hget 2 3 (by omega) (by omega) (by omega),
      hget 1 2 (by omega) (by omega) (by omega),
      hget 0 1 (by omega) (by omega) (by omega)⟩
  · simp only [Worker.triW2, List.take, List.sum_cons, List.sum_nil,
      Worker.normStrength, Worker.vertTotal]
    exact norm4_sum _ _ _ _ h1
  · simp only [Worker.triW2, List.drop, List.take, List.sum_cons, List.sum_nil,
      Worker.normStrength, Worker.vertTotal]
    exact norm4_sum _ _ _ _ h2
  · simp only [Worker.triW2, List.drop, List.sum_cons, List.sum_nil,
      Worker.normStrength, Worker.vertTotal]
    exact norm4_sum _ _ _ _ h3

/-- Texture index per splat key used by the concrete witness generator. -/
def idxW : String → ℚ := fun k =>
  if k = "a" then 0 else if k = "b" then 1 else if k = "c" then 2 else 3

/-- Strength per splat key used by the concrete witness generator. -/
def strW : String → ℚ := fun k =>
  if k = "a" then 4 else if k = "b" then 3 else if k = "c" then 2 else 1

/-- Generators with point-independent splat maps over four keys with
distinct strengths `a:4 > b:3 > c:2 > d:1`. -/
def gSplat : Generators :=
  { heightGen := fun _ => 0
    getColour := fun _ => ⟨0, 0, 0⟩
    getSplat := fun _ _ _ k => (idxW k, strW k)
    splatKeys := ["a", "b", "c", "d"] }

unseal Rat.add Rat.mul Rat.inv Rat.sub Rat.ofScientific in
/-- Witness for C5: on a concrete emitted planet triangle the first
vertex's four normalized strengths sum to 1, and `weights1` carries the
indices `[3,2,1,0]` (weakest type `d` first) for each of the three
vertices. -/
theorem triangle_texture_weights_top4_witness :
    (((0, 3, 1) : Worker.Tri) ∈ Worker.triangleList mId gSplat pPlain) ∧
    ((Worker.triW2 mId gSplat pPlain (0, 3, 1)).take 4).sum = 1 ∧
    Worker.triW1 mId gSplat pPlain (0, 3, 1) =
      [3, 2, 1, 0, 3, 2, 1, 0, 3, 2, 1, 0] :=
  ⟨by decide,
   (triangle_texture_weights_top4 mId gSplat pPlain idxW (fun _ _ _ _ => rfl)
      (0, 3, 1) (by decide) (by decide) (by decide) (by decide)).2.2.2.2.1,
   by decide⟩

/-- Translation applied to one grid vertex record when the build origin
moves by `dlt`: only the chunk-relative position (and hence the UV derived
from it) shifts. -/
def shiftVD (dlt : Vec3) (vd : Worker.VertexData) : Worker.VertexData :=
  { vd with
    position := vd.position + dlt
    uv := (vd.uv.1 + dlt.x / 200, vd.uv.2 + dlt.y / 200) }

theorem worldPoint_origin (m : MathOps) (p : BuildParams) (o : Vec3)
    (x y : ℕ) :
    Worker.worldPoint m { p with origin := o } x y =
      Worker.worldPoint m p x y := rfl

theorem vertexUp_origin (m : MathOps) (p : BuildParams) (o : Vec3)
    (x y : ℕ) :
    Worker.vertexUp m { p with origin := o } x y =
      Worker.vertexUp m p x y := rfl

theorem vertexHeight_origin (m : MathOps) (g : Generators) (p : BuildParams)
    (o : Vec3) (x y : ℕ) :
    Worker.vertexHeight m g { p with origin := o } x y =
      Worker.vertexHeight m g p x y := rfl

theorem gridLat_origin (m : MathOps) (p : BuildParams) (o : Vec3)
    (x y : ℕ) :
    Worker.gridLat m { p with origin := o } x y =
      Worker.gridLat m p x y := rfl

theorem vertexMask_origin (m : MathOps) (p : BuildParams) (o : Vec3)
    (x y : ℕ) :
    Worker.vertexMask m { p with origin := o } x y =
      Worker.vertexMask m p x y := rfl

theorem vec_sub_add_shift (w h o₁ o₂ : Vec3) :
    (w - o₁) + h = ((w - o₂) + h) + (o₂ - o₁) := by
  simp only [Vec3.sub_def, Vec3.add_def, Vec3.mk.injEq]
  refine ⟨by ring, by ring, by ring⟩

theorem computeVertex_origin (m : MathOps) (g : Generators) (p : BuildParams)
    (o₁ o₂ : Vec3) (x y : ℕ) :
    Worker.computeVertex m g { p with origin := o₁ } x y =
      shiftVD (o₂ - o₁)
        (Worker.computeVertex m g { p with origin := o₂ } x y) := by
  simp only [Worker.computeVertex, shiftVD, worldPoint_origin,
    vertexHeight_origin, vertexUp_origin, gridLat_origin, vertexMask_origin,
    Worker.VertexData.mk.injEq, true_and, and_true]
  refine ⟨vec_sub_add_shift _ _ _ _, ?_⟩
  simp only [Vec3.add_def, Vec3.sub_def, Vec3.scale, Prod.mk.injEq]
  refine ⟨by ring, by ring⟩

theorem gridVertices_origin (m : MathOps) (g : Generators) (p : BuildParams)
    (o₁ o₂ : Vec3) :
    Worker.gridVertices m g { p with origin := o₁ } =
      (Worker.gridVertices m g { p with origin := o₂ }).map
        (shiftVD (o₂ - o₁)) := by
  simp only [Worker.gridVertices, List.map_flatMap, List.map_map]
  apply Worker.flatMap_congr_mem
  intro x _
  apply List.map_congr_left
  intro y _
  exact computeVertex_origin m g p o₁ o₂ x y

theorem latitudesList_origin (m : MathOps) (g : Generators) (p : BuildParams)
    (o₁ o₂ : Vec3) :
    Worker.latitudesList m g { p with origin := o₁ } =
      Worker.latitudesList m g { p with origin := o₂ } := by
  simp only [Worker.latitudesList, gridVertices_origin m g p o₁ o₂,
    List.map_map]
  rfl

theorem masksList_origin (m : MathOps) (g : Generators) (p : BuildParams)
    (o₁ o₂ : Vec3) :
    Worker.masksList m g { p with origin := o₁ } =
      Worker.masksList m g { p with origin := o₂ } := by
  simp only [Worker.masksList, gridVertices_origin m g p o₁ o₂, List.map_map]
  rfl

theorem isRing_origin (p : BuildParams) (o : Vec3) :
    Worker.isRing { p with origin := o } = Worker.isRing p := rfl

theorem ringCullLimit_origin (p : BuildParams) (o : Vec3) :
    Worker.ringCullLimit { p with origin := o } =
      Worker.ringCullLimit p := rfl

theorem quadTris_origin (m : MathOps) (g : Generators) (p : BuildParams)
    (o₁ o₂ : Vec3) (i j : ℕ) :
    Worker.quadTris m g { p with origin := o₁ } i j =
      Worker.quadTris m g { p with origin := o₂ } i j := by
  simp only [Worker.quadTris, Worker.quadLatMax, Worker.quadMaskMin,
    latitudesList_origin m g p o₁ o₂, masksList_origin m g p o₁ o₂,
    isRing_origin, ringCullLimit_origin]

theorem triangleList_origin (m : MathOps) (g : Generators) (p : BuildParams)
    (o₁ o₂ : Vec3) :
    Worker.triangleList m g { p with origin := o₁ } =
      Worker.triangleList m g { p with origin := o₂ } := by
  simp only [Worker.triangleList]
  apply Worker.flatMap_congr_mem
  intro i _
  apply Worker.flatMap_congr_mem
  intro j _
  exact quadTris_origin m g p o₁ o₂ i j

theorem gridVertices_length (m : MathOps) (g : Generators) (p : BuildParams) :
    (Worker.gridVertices m g p).length =
      (p.resolution + 1) * (p.resolution + 1) := by
  rw [Worker.gridVertices,
    Worker.length_flatMap_const _ _ (p.resolution + 1)
      (fun a _ => by simp [List.length_map, List.length_range])]
  simp [List.length_range]

theorem vertexAt_origin_lt (m : MathOps) (g : Generators) (p : BuildParams)
    (o₁ o₂ : Vec3) (v : ℕ)
    (hv : v < (p.resolution + 1) * (p.resolution + 1)) :
    Worker.vertexAt m g { p with origin := o₁ } v =
      shiftVD (o₂ - o₁) (Worker.vertexAt m g { p with origin := o₂ } v) := by
  rw [Worker.vertexAt, Worker.vertexAt, gridVertices_origin m g p o₁ o₂]
  exact Worker.getD_map_lt _ Worker.vdDefault Worker.vdDefault
    (by rw [gridVertices_length]; exact hv)

theorem vertexAt_origin_ge (m : MathOps) (g : Generators) (p : BuildParams)
    (o₁ o₂ : Vec3) (v : ℕ)
    (hv : (p.resolution + 1) * (p.resolution + 1) ≤ v) :
    Worker.vertexAt m g { p with origin := o₁ } v = Worker.vdDefault ∧
      Worker.vertexAt m g { p with origin := o₂ } v = Worker.vdDefault := by
  constructor <;>
    · rw [Worker.vertexAt]
      apply List.getD_eq_default
      rw [gridVertices_length]
      exact hv

/-- Every field of a grid-vertex record other than `position` and `uv` is
unchanged by an origin translation. -/
theorem vertexAt_fields_origin (m : MathOps) (g : Generators)
    (p : BuildParams) (o₁ o₂ : Vec3) (v : ℕ) :
    (Worker.vertexAt m g { p with origin := o₁ } v).colour =
      (Worker.vertexAt m g { p with origin := o₂ } v).colour ∧
    (Worker.vertexAt m g { p with origin := o₁ } v).upDir =
      (Worker.vertexAt m g { p with origin := o₂ } v).upDir ∧
    (Worker.vertexAt m g { p with origin := o₁ } v).coord =
      (Worker.vertexAt m g { p with origin := o₂ } v).coord ∧
    (Worker.vertexAt m g { p with origin := o₁ } v).wsPosition =
      (Worker.vertexAt m g { p with origin := o₂ } v).wsPosition ∧
    (Worker.vertexAt m g { p with origin := o₁ } v).latitude =
      (Worker.vertexAt m g { p with origin := o₂ } v).latitude ∧
    (Worker.vertexAt m g { p with origin := o₁ } v).heightMask =
      (Worker.vertexAt m g { p with origin := o₂ } v).heightMask := by
  by_cases hv : v < (p.resolution + 1) * (p.resolution + 1)
  · rw [vertexAt_origin_lt m g p o₁ o₂ v hv]
    exact ⟨rfl, rfl, rfl, rfl, rfl, rfl⟩
  · obtain ⟨h1, h2⟩ := vertexAt_origin_ge m g p o₁ o₂ v (le_of_not_lt hv)
    rw [h1, h2]
    exact ⟨rfl, rfl, rfl, rfl, rfl, rfl⟩

theorem positionAt_origin (m : MathOps) (g : Generators) (p : BuildParams)
    (o₁ o₂ : Vec3) (v : ℕ)
    (hv : v < (p.resolution + 1) * (p.resolution + 1)) :
    Worker.positionAt m g { p with origin := o₁ } v =
      Worker.positionAt m g { p with origin := o₂ } v + (o₂ - o₁) := by
  rw [Worker.positionAt, Worker.positionAt, vertexAt_origin_lt m g p o₁ o₂ v hv]
  rfl

theorem idx_bound {a b res : ℕ} (ha : a ≤ res) (hb : b ≤ res) :
    a * (res + 1) + b < (res + 1) * (res + 1) := by
  nlinarith

/-- Every vertex index of an emitted triangle addresses a real grid slot. -/
theorem triangle_mem_bound (m : MathOps) (g : Generators) (p : BuildParams)
    (t : Worker.Tri) (ht : t ∈ Worker.triangleList m g p) :
    t.1 < (p.resolution + 1) * (p.resolution + 1) ∧
    t.2.1 < (p.resolution + 1) * (p.resolution + 1) ∧
    t.2.2 < (p.resolution + 1) * (p.resolution + 1) := by
  obtain ⟨i, hi, hti⟩ := List.mem_flatMap.mp ht
  obtain ⟨j, hj, htj⟩ := List.mem_flatMap.mp hti
  have hi' : i ≤ p.resolution - 1 ∨ i < p.resolution := Or.inr (List.mem_range.mp hi)
  have hjr : j < p.resolution := List.mem_range.mp hj
  have hir : i < p.resolution := List.mem_range.mp hi
  have h00 : i * (p.resolution + 1) + j <
      (p.resolution + 1) * (p.resolution + 1) :=
    idx_bound (Nat.le_of_lt hir) (Nat.le_of_lt hjr)
  have h01 : i * (p.resolution + 1) + (j + 1) <
      (p.resolution + 1) * (p.resolution + 1) :=
    idx_bound (Nat.le_of_lt hir) hjr
  have h10 : (i + 1) * (p.resolution + 1) + j <
      (p.resolution + 1) * (p.resolution + 1) :=
    idx_bound hir (Nat.le_of_lt hjr)
  have h11 : (i + 1) * (p.resolution + 1) + (j + 1) <
      (p.resolution + 1) * (p.resolution + 1) :=
    idx_bound hir hjr
  rw [Worker.quadTris] at htj
  split_ifs at htj <;> simp only [List.mem_cons, List.not_mem_nil,
    or_false] at htj <;>
    rcases htj with rfl | rfl <;>
    refine ⟨?_, ?_, ?_⟩ <;> dsimp only <;> omega

theorem faceNormal_origin (m : MathOps) (g : Generators) (p : BuildParams)
    (o₁ o₂ : Vec3) (t : Worker.Tri)
    (h1 : t.1 < (p.resolution + 1) * (p.resolution + 1))
    (h2 : t.2.1 < (p.resolution + 1) * (p.resolution + 1))
    (h3 : t.2.2 < (p.resolution + 1) * (p.resolution + 1)) :
    Worker.faceNormal m g { p with origin := o₁ } t =
      Worker.faceNormal m g { p with origin := o₂ } t := by
  rw [Worker.faceNormal, Worker.faceNormal,
    positionAt_origin m g p o₁ o₂ t.1 h1,
    positionAt_origin m g p o₁ o₂ t.2.1 h2,
    positionAt_origin m g p o₁ o₂ t.2.2 h3]
  simp only [Vec3.add_def, Vec3.sub_def, Vec3.cross, Vec3.mk.injEq]
  refine ⟨by ring, by ring, by ring⟩

theorem normalAccumAt_origin (m : MathOps) (g : Generators) (p : BuildParams)
    (o₁ o₂ : Vec3) (v : ℕ) :
    Worker.normalAccumAt m g { p with origin := o₁ } v =
      Worker.normalAccumAt m g { p with origin := o₂ } v := by
  rw [Worker.normalAccumAt, Worker.normalAccumAt,
    triangleList_origin m g p o₁ o₂]
  apply Worker.foldl_congr_mem
  intro t htmem acc
  obtain ⟨h1, h2, h3⟩ := triangle_mem_bound m g { p with origin := o₂ } t htmem
  rw [faceNormal_origin m g p o₁ o₂ t h1 h2 h3]

theorem normalAt_origin (m : MathOps) (g : Generators) (p : BuildParams)
    (o₁ o₂ : Vec3) (v : ℕ) :
    Worker.normalAt m g { p with origin := o₁ } v =
      Worker.normalAt m g { p with origin := o₂ } v := by
  rw [Worker.normalAt, Worker.normalAt, normalAccumAt_origin m g p o₁ o₂ v]

theorem splatAt_origin (m : MathOps) (g : Generators) (p : BuildParams)
    (o₁ o₂ : Vec3) (v : ℕ) :
    Worker.splatAt m g { p with origin := o₁ } v =
      Worker.splatAt m g { p with origin := o₂ } v := by
  obtain ⟨-, hup, -, hws, -, -⟩ := vertexAt_fields_origin m g p o₁ o₂ v
  rw [Worker.splatAt, Worker.splatAt, hup, hws,
    normalAt_origin m g p o₁ o₂ v]

theorem triStrength_origin (m : MathOps) (g : Generators) (p : BuildParams)
    (o₁ o₂ : Vec3) (t : Worker.Tri) (k : String) :
    Worker.triStrength m g { p with origin := o₁ } t k =
      Worker.triStrength m g { p with origin := o₂ } t k := by
  rw [Worker.triStrength, Worker.triStrength,
    splatAt_origin m g p o₁ o₂ t.1, splatAt_origin m g p o₁ o₂ t.2.1,
    splatAt_origin m g p o₁ o₂ t.2.2]

theorem triSortedTypes_origin (m : MathOps) (g : Generators)
    (p : BuildParams) (o₁ o₂ : Vec3) (t : Worker.Tri) :
    Worker.triSortedTypes m g { p with origin := o₁ } t =
      Worker.triSortedTypes m g { p with origin := o₂ } t := by
  rw [Worker.triSortedTypes, Worker.triSortedTypes]
  congr 1
  apply List.map_congr_left
  intro k _
  rw [triStrength_origin m g p o₁ o₂ t k]

theorem triKey_origin (m : MathOps) (g : Generators) (p : BuildParams)
    (o₁ o₂ : Vec3) (t : Worker.Tri) (i : ℕ) :
    Worker.triKey m g { p with origin := o₁ } t i =
      Worker.triKey m g { p with origin := o₂ } t i := by
  rw [Worker.triKey, Worker.triKey, triSortedTypes_origin m g p o₁ o₂ t]

theorem vertTotal_origin (m : MathOps) (g : Generators) (p : BuildParams)
    (o₁ o₂ : Vec3) (t : Worker.Tri) (v : ℕ) :
    Worker.vertTotal m g { p with origin := o₁ } t v =
      Worker.vertTotal m g { p with origin := o₂ } t v := by
  simp only [Worker.vertTotal, splatAt_origin m g p o₁ o₂ v,
    triKey_origin m g p o₁ o₂ t]

theorem normStrength_origin (m : MathOps) (g : Generators) (p : BuildParams)
    (o₁ o₂ : Vec3) (t : Worker.Tri) (v i : ℕ) :
    Worker.normStrength m g { p with origin := o₁ } t v i =
      Worker.normStrength m g { p with origin := o₂ } t v i := by
  rw [Worker.normStrength, Worker.normStrength,
    splatAt_origin m g p o₁ o₂ v, triKey_origin m g p o₁ o₂ t,
    vertTotal_origin m g p o₁ o₂ t v]

theorem triW1_origin (m : MathOps) (g : Generators) (p : BuildParams)
    (o₁ o₂ : Vec3) (t : Worker.Tri) :
    Worker.triW1 m g { p with origin := o₁ } t =
      Worker.triW1 m g { p with origin := o₂ } t := by
  simp only [Worker.triW1, splatAt_origin m g p o₁ o₂,
    triKey_origin m g p o₁ o₂ t]

theorem triW2_origin (m : MathOps) (g : Generators) (p : BuildParams)
    (o₁ o₂ : Vec3) (t : Worker.Tri) :
    Worker.triW2 m g { p with origin := o₁ } t =
      Worker.triW2 m g { p with origin := o₂ } t := by
  simp only [Worker.triW2, normStrength_origin m g p o₁ o₂ t]

/-- Shift a flat xyz float array by one vector, three floats at a time. -/
def shiftFlat3 (dlt : Vec3) : List ℚ → List ℚ
  | x :: y :: z :: rest =>
      (x + dlt.x) :: (y + dlt.y) :: (z + dlt.z) :: shiftFlat3 dlt rest
  | l => l

theorem positions_flatMap_shift (m : MathOps) (g : Generators)
    (p : BuildParams) (o₁ o₂ : Vec3) (L : List Worker.Tri)
    (hL : ∀ t ∈ L, t.1 < (p.resolution + 1) * (p.resolution + 1) ∧
      t.2.1 < (p.resolution + 1) * (p.resolution + 1) ∧
      t.2.2 < (p.resolution + 1) * (p.resolution + 1)) :
    (L.flatMap fun t =>
      Worker.vecFloats (Worker.positionAt m g { p with origin := o₁ } t.1) ++
        Worker.vecFloats (Worker.positionAt m g { p with origin := o₁ } t.2.1) ++
        Worker.vecFloats (Worker.positionAt m g { p with origin := o₁ } t.2.2)) =
      shiftFlat3 (o₂ - o₁) (L.flatMap fun t =>
        Worker.vecFloats (Worker.positionAt m g { p with origin := o₂ } t.1) ++
          Worker.vecFloats (Worker.positionAt m g { p with origin := o₂ } t.2.1) ++
          Worker.vecFloats (Worker.positionAt m g { p with origin := o₂ } t.2.2)) := by
  induction L with
  | nil => rfl
  | cons a L ih =>
    have hb := hL a (List.mem_cons_self a L)
    have hrest := fun t htm => hL t (List.mem_cons_of_mem a htm)
    simp only [List.flatMap_cons]
    rw [positionAt_origin m g p o₁ o₂ a.1 hb.1,
      positionAt_origin m g p o₁ o₂ a.2.1 hb.2.1,
      positionAt_origin m g p o₁ o₂ a.2.2 hb.2.2, ih hrest]
    simp [Worker.vecFloats, shiftFlat3, Vec3.add_def]

/-- C7: the sampled height is taken at the absolute world-space position
(the projected point plus the shape center, captured before the origin is
subtracted). Hence two build requests that differ only in `origin` agree
on the emitted triangles, sampled heights (the `wsPosition` records),
colours, normals, coords, weights1 and weights2, while every output vertex
position is shifted by exactly the difference of the two origins. -/
theorem origin_translation_invariance (m : MathOps) (g : Generators)
    (p : BuildParams) (o₁ o₂ : Vec3) :
    Worker.triangleList m g { p with origin := o₁ } =
      Worker.triangleList m g { p with origin := o₂ } ∧
    (Worker.gridVertices m g { p with origin := o₁ }).map (·.wsPosition) =
      (Worker.gridVertices m g { p with origin := o₂ }).map (·.wsPosition) ∧
    (Worker.Rebuild m g { p with origin := o₁ }).colours =
      (Worker.Rebuild m g { p with origin := o₂ }).colours ∧
    (Worker.Rebuild m g { p with origin := o₁ }).normals =
      (Worker.Rebuild m g { p with origin := o₂ }).normals ∧
    (Worker.Rebuild m g { p with origin := o₁ }).coords =
      (Worker.Rebuild m g { p with origin := o₂ }).coords ∧
    (Worker.Rebuild m g { p with origin := o₁ }).weights1 =
      (Worker.Rebuild m g { p with origin := o₂ }).weights1 ∧
    (Worker.Rebuild m g { p with origin := o₁ }).weights2 =
      (Worker.Rebuild m g { p with origin := o₂ }).weights2 ∧
    (Worker.Rebuild m g { p with origin := o₁ }).positions =
      shiftFlat3 (o₂ - o₁)
        ((Worker.Rebuild m g { p with origin := o₂ }).positions) := by
  have hT := triangleList_origin m g p o₁ o₂
  refine ⟨hT, ?_, ?_, ?_, ?_, ?_, ?_, ?_⟩
  · rw [gridVertices_origin m g p o₁ o₂, List.map_map]
    rfl
  · show (Worker.triangleList m g { p with origin := o₁ }).flatMap _ =
      (Worker.triangleList m g { p with origin := o₂ }).flatMap _
    rw [hT]
    apply Worker.flatMap_congr_mem
    intro t _
    rw [(vertexAt_fields_origin m g p o₁ o₂ t.1).1,
      (vertexAt_fields_origin m g p o₁ o₂ t.2.1).1,
      (vertexAt_fields_origin m g p o₁ o₂ t.2.2).1]
  · show (Worker.triangleList m g { p with origin := o₁ }).flatMap _ =
      (Worker.triangleList m g { p with origin := o₂ }).flatMap _
    rw [hT]
    apply Worker.flatMap_congr_mem
    intro t _
    rw [normalAt_origin m g p o₁ o₂ t.1, normalAt_origin m g p o₁ o₂ t.2.1,
      normalAt_origin m g p o₁ o₂ t.2.2]
  · show (Worker.triangleList m g { p with origin := o₁ }).flatMap _ =
      (Worker.triangleList m g { p with origin := o₂ }).flatMap _
    rw [hT]
    apply Worker.flatMap_congr_mem
    intro t _
    rw [(vertexAt_fields_origin m g p o₁ o₂ t.1).2.2.1,
      (vertexAt_fields_origin m g p o₁ o₂ t.2.1).2.2.1,
      (vertexAt_fields_origin m g p o₁ o₂ t.2.2).2.2.1]
  · show (Worker.triangleList m g { p with origin := o₁ }).flatMap _ =
      (Worker.triangleList m g { p with origin := o₂ }).flatMap _
    rw [hT]
    apply Worker.flatMap_congr_mem
    intro t _
    exact triW1_origin m g p o₁ o₂ t
  · show (Worker.triangleList m g { p with origin := o₁ }).flatMap _ =
      (Worker.triangleList m g { p with origin := o₂ }).flatMap _
    rw [hT]
    apply Worker.flatMap_congr_mem
    intro t _
    exact triW2_origin m g p o₁ o₂ t
  · show (Worker.triangleList m g { p with origin := o₁ }).flatMap _ =
      shiftFlat3 (o₂ - o₁)
        ((Worker.triangleList m g { p with origin := o₂ }).flatMap _)
    rw [hT]
    exact positions_flatMap_shift m g p o₁ o₂ _
      (fun t htm => triangle_mem_bound m g { p with origin := o₂ } t htm)
